import Mathlib

/- Shallow embedding of the alertmanager-mcp server (src/src/index.ts).
   The six MCP tool handlers are modelled as total Lean functions; the single
   upstream HTTP round trip each handler awaits is passed in as an
   explicit value of type Except String _, where the error case is the
   message of the exception thrown by fetchFromAlertmanager (or by the
   host fetch itself).  JS promise rejection / thrown exceptions correspond
   to the Except.error case; the try/catch at each handler boundary is the
   match on that Except. -/

/-- Minimal JSON value model. Numbers are restricted to integers: no claim
of this development inspects numeric payloads, so float semantics are not
needed. -/
inductive Json where
  | null : Json
  | bool : Bool → Json
  | num : Int → Json
  | str : String → Json
  | arr : List Json → Json
  | obj : List (String × Json) → Json

/-- Top-level keys of a JSON object (empty for non-objects). -/
def Json.keys : Json → List String
  | .obj fs => fs.map Prod.fst
  | _ => []

/-- Field lookup in a JSON object, mirroring JS property access on a parsed
JSON value: the first binding wins, absent keys give none (undefined). -/
def Json.getField : Json → String → Option Json
  | .obj fs, k => fs.lookup k
  | _, _ => none

mutual
/-- Serialization of a Json value, modelling JSON.stringify. The 2-space
indentation of JSON.stringify(x, null, 2) and escaping of special characters
inside strings are not reproduced; no claim depends on the exact rendered
text of a success payload, only on the structured value being rendered. -/
def Json.render : Json → String
  | .null => "null"
  | .bool b => cond b "true" "false"
  | .num n => toString n
  | .str s => "\"" ++ s ++ "\""
  | .arr xs => "[" ++ Json.renderArr xs ++ "]"
  | .obj fs => "\x7b" ++ Json.renderObj fs ++ "\x7d"

/-- Comma-joined rendering of array elements. -/
def Json.renderArr : List Json → String
  | [] => ""
  | [x] => Json.render x
  | x :: xs => Json.render x ++ ", " ++ Json.renderArr xs

/-- Comma-joined rendering of object fields. -/
def Json.renderObj : List (String × Json) → String
  | [] => ""
  | [(k, v)] => "\"" ++ k ++ "\": " ++ Json.render v
  | (k, v) :: fs => "\"" ++ k ++ "\": " ++ Json.render v ++ ", " ++ Json.renderObj fs
end

/-- The string msg contains sub as a contiguous substring. -/
def ContainsStr (msg sub : String) : Prop :=
  ∃ before after, msg = before ++ sub ++ after

/-- JS string defaulting idiom x || dflt applied to a value that is either
a string or undefined (modelled as Option String): undefined and the empty
string are falsy, every other string is truthy. -/
def jsOr (v : Option String) (dflt : String) : String :=
  match v with
  | none => dflt
  | some s => if s = "" then dflt else s

/- ---------------- Alert data model (interfaces in index.ts) ------------- -/

/-- Alert.status: state plus the silencing / inhibiting id sequences. -/
structure AlertStatus where
  state : String
  silencedBy : List String
  inhibitedBy : List String

/-- An upstream Alert. labels and annotations are string-to-string mappings
(JS objects), modelled as association lists with first-binding-wins lookup. -/
structure Alert where
  fingerprint : String
  status : AlertStatus
  labels : List (String × String)
  annotations : List (String × String)
  startsAt : String
  endsAt : String
  generatorURL : String

/-- Flattened status of the display projection. -/
structure FormattedStatus where
  state : String
  silenced : Bool
  inhibited : Bool

/-- The FormattedAlert projection. alertname is alert.labels.alertname with
no default, so it is undefined (none) when the label is absent. -/
structure FormattedAlert where
  fingerprint : String
  alertname : Option String
  severity : String
  summary : String
  description : String
  startsAt : String
  status : FormattedStatus
  labels : List (String × String)

/-- The get-alerts projection of one Alert, mirroring the object literal in
the formattedAlerts map (index.ts lines 123-136): severity, summary and
description use the JS || defaulting idiom; silenced and inhibited compare
the lengths of silencedBy / inhibitedBy against 0. -/
def formatAlert (alert : Alert) : FormattedAlert :=
  { fingerprint := alert.fingerprint
    alertname := alert.labels.lookup "alertname"
    severity := jsOr (alert.labels.lookup "severity") "unknown"
    summary := jsOr (alert.annotations.lookup "summary") "No summary provided"
    description := jsOr (alert.annotations.lookup "description") "No description provided"
    startsAt := alert.startsAt
    status :=
      { state := alert.status.state
        silenced := decide (alert.status.silencedBy.length > 0)
        inhibited := decide (alert.status.inhibitedBy.length > 0) }
    labels := alert.labels }

/-- JSON form of a string-to-string mapping. -/
def labelsJson (m : List (String × String)) : Json :=
  Json.obj (m.map fun p => (p.1, Json.str p.2))

/-- JSON object produced by serializing a FormattedAlert, with the field
order of the object literal in the code. JSON.stringify drops fields whose
value is undefined, so the alertname field is present only when the
alertname label existed. -/
def FormattedAlert.toJson (f : FormattedAlert) : Json :=
  Json.obj
    ([("fingerprint", Json.str f.fingerprint)] ++
     (match f.alertname with
      | some s => [("alertname", Json.str s)]
      | none => []) ++
     [("severity", Json.str f.severity),
      ("summary", Json.str f.summary),
      ("description", Json.str f.description),
      ("startsAt", Json.str f.startsAt),
      ("status", Json.obj
        [("state", Json.str f.status.state),
         ("silenced", Json.bool f.status.silenced),
         ("inhibited", Json.bool f.status.inhibited)]),
      ("labels", labelsJson f.labels)])

/-- The details object built by get-alert-details for a found alert
(index.ts lines 177-186): the full, unprojected fields. As above,
JSON.stringify drops an undefined alertname. -/
def alertDetailsJson (alert : Alert) : Json :=
  Json.obj
    ([("fingerprint", Json.str alert.fingerprint)] ++
     (match alert.labels.lookup "alertname" with
      | some s => [("alertname", Json.str s)]
      | none => []) ++
     [("labels", labelsJson alert.labels),
      ("annotations", labelsJson alert.annotations),
      ("startsAt", Json.str alert.startsAt),
      ("endsAt", Json.str alert.endsAt),
      ("generatorURL", Json.str alert.generatorURL),
      ("status", Json.obj
        [("state", Json.str alert.status.state),
         ("silencedBy", Json.arr (alert.status.silencedBy.map Json.str)),
         ("inhibitedBy", Json.arr (alert.status.inhibitedBy.map Json.str))])])

/- ---------------- Silence data model ------------------------------------ -/

/-- Nested status of an upstream Silence. -/
structure SilenceStatus where
  state : String

/-- A matcher as it appears in upstream Silence objects and in the outgoing
silence creation body: isRegex always present. -/
structure SilenceMatcher where
  name : String
  value : String
  isRegex : Bool

/-- An upstream Silence. -/
structure Silence where
  id : String
  status : SilenceStatus
  createdBy : String
  comment : String
  startsAt : String
  endsAt : String
  matchers : List SilenceMatcher

/-- The get-silences projection: status flattened to the state string. -/
structure FormattedSilence where
  id : String
  status : String
  createdBy : String
  comment : String
  startsAt : String
  endsAt : String
  matchers : List SilenceMatcher

/-- The get-silences projection of one Silence (index.ts formattedSilences). -/
def formatSilence (s : Silence) : FormattedSilence :=
  { id := s.id
    status := s.status.state
    createdBy := s.createdBy
    comment := s.comment
    startsAt := s.startsAt
    endsAt := s.endsAt
    matchers := s.matchers }

/-- JSON form of a matcher. -/
def SilenceMatcher.toJson (m : SilenceMatcher) : Json :=
  Json.obj
    [("name", Json.str m.name),
     ("value", Json.str m.value),
     ("isRegex", Json.bool m.isRegex)]

/-- JSON form of a formatted silence. -/
def FormattedSilence.toJson (f : FormattedSilence) : Json :=
  Json.obj
    [("id", Json.str f.id),
     ("status", Json.str f.status),
     ("createdBy", Json.str f.createdBy),
     ("comment", Json.str f.comment),
     ("startsAt", Json.str f.startsAt),
     ("endsAt", Json.str f.endsAt),
     ("matchers", Json.arr (f.matchers.map SilenceMatcher.toJson))]

/- ---------------- create-silence arguments and body --------------------- -/

/-- A matcher argument as validated by the create-silence input schema:
isRegex is optional. -/
structure MatcherArg where
  name : String
  value : String
  isRegex : Option Bool

/-- Normalization of one matcher in the outgoing body: m.isRegex || false,
so an absent (undefined) isRegex becomes false and a present boolean is
passed through (false || false = false, true || false = true). -/
def normalizeMatcher (m : MatcherArg) : SilenceMatcher :=
  { name := m.name
    value := m.value
    isRegex := m.isRegex.getD false }

/-- The JSON body POSTed to silences. -/
structure SilenceData where
  matchers : List SilenceMatcher
  startsAt : String
  endsAt : String
  createdBy : String
  comment : String

/-- Construction of the silence creation body (index.ts lines 228-239).
now is the single Date toISOString value computed at the start of the call;
startsAt || now uses the JS falsy idiom, so both an omitted and an empty
startsAt are replaced by now. -/
def buildSilenceData (now : String) (matchers : List MatcherArg)
    (startsAt : Option String) (endsAt createdBy comment : String) : SilenceData :=
  { matchers := matchers.map normalizeMatcher
    startsAt := jsOr startsAt now
    endsAt := endsAt
    createdBy := createdBy
    comment := comment }

/-- The field of the upstream response to POST silences that create-silence
reads (response.silenceID). -/
structure CreateSilenceResponse where
  silenceID : String

/- ---------------- zod input schema for create-silence ------------------- -/

/-- Decoder for one element of the matchers array, mirroring
z.object with name: z.string(), value: z.string(),
isRegex: z.boolean().optional(): required keys must be present with the
right type, the optional key may be absent but must be a boolean when
present; extra keys are ignored (zod strips unknown keys by default). -/
def decodeMatcher (j : Json) : Option MatcherArg :=
  match j with
  | .obj fs =>
    match fs.lookup "name", fs.lookup "value", fs.lookup "isRegex" with
    | some (.str n), some (.str v), none =>
        some { name := n, value := v, isRegex := none }
    | some (.str n), some (.str v), some (.bool b) =>
        some { name := n, value := v, isRegex := some b }
    | _, _, _ => none
  | _ => none

/-- Decoder for the matchers field: z.array accepts any JSON array, of any
length including zero, whose elements all validate. -/
def decodeMatchers (j : Json) : Option (List MatcherArg) :=
  match j with
  | .arr xs => xs.mapM decodeMatcher
  | _ => none

/-- The create-silence arguments after schema validation. -/
structure CreateSilenceArgs where
  matchers : List MatcherArg
  startsAt : Option String
  endsAt : String
  createdBy : String
  comment : String

/-- Decoder for an optional string field value. -/
def decodeOptStr (j : Option Json) : Option (Option String) :=
  match j with
  | none => some none
  | some (.str s) => some (some s)
  | some _ => none

/-- Decoder for the whole create-silence argument object, mirroring the zod
schema of the tool registration: matchers is a required array of matcher
objects, startsAt an optional string, endsAt, createdBy and comment
required strings. -/
def decodeCreateSilenceArgs (j : Json) : Option CreateSilenceArgs :=
  match j with
  | .obj fs =>
    match fs.lookup "matchers" with
    | none => none
    | some mj =>
      match decodeMatchers mj, decodeOptStr (fs.lookup "startsAt"),
            fs.lookup "endsAt", fs.lookup "createdBy", fs.lookup "comment" with
      | some ms, some sa, some (.str e), some (.str cb), some (.str cm) =>
          some { matchers := ms, startsAt := sa, endsAt := e,
                 createdBy := cb, comment := cm }
      | _, _, _, _, _ => none
  | _ => none

/- ---------------- Query string construction ----------------------------- -/

/-- Parameter list built by the get-alerts handler from the effective
(post-default) argument values, in append order: filter is appended only
when truthy (present and non-empty), silenced and inhibited only when true,
active only when false. -/
def getAlertsParams (filter : Option String) (silenced inhibited active : Bool) :
    List (String × String) :=
  (match filter with
   | some s => if s = "" then [] else [("filter", s)]
   | none => []) ++
  (if silenced then [("silenced", "true")] else []) ++
  (if inhibited then [("inhibited", "true")] else []) ++
  (if !active then [("active", "false")] else [])

/-- Parameter list built from the raw (possibly omitted) arguments, applying
the JS default parameter values silenced = false, inhibited = false,
active = true. -/
def getAlertsQuery (filter : Option String) (silenced inhibited active : Option Bool) :
    List (String × String) :=
  getAlertsParams filter (silenced.getD false) (inhibited.getD false) (active.getD true)

/-- URLSearchParams toString on the accumulated parameter list. Values are
joined as key=value with ampersand separators; percent-encoding of values is
not modelled (the boolean flag values "true" and "false" at issue in the
claims are encoding-invariant). -/
def queryToString (ps : List (String × String)) : String :=
  String.intercalate "&" (ps.map fun p => p.1 ++ "=" ++ p.2)

/-- Request path of the get-alerts call: the query string is appended with a
question mark only when non-empty. -/
def getAlertsPath (filter : Option String) (silenced inhibited active : Option Bool) :
    String :=
  let qs := queryToString (getAlertsQuery filter silenced inhibited active)
  if qs = "" then "alerts" else "alerts?" ++ qs

/-- Parameter list built by the get-alert-groups handler from the effective
argument values; note the source appends active first for this handler. -/
def getAlertGroupsParams (active silenced inhibited : Bool) : List (String × String) :=
  (if !active then [("active", "false")] else []) ++
  (if silenced then [("silenced", "true")] else []) ++
  (if inhibited then [("inhibited", "true")] else [])

/-- Parameter list of get-alert-groups from raw arguments with JS defaults. -/
def getAlertGroupsQuery (active silenced inhibited : Option Bool) : List (String × String) :=
  getAlertGroupsParams (active.getD true) (silenced.getD false) (inhibited.getD false)

/-- Request path of the get-alert-groups call. -/
def getAlertGroupsPath (active silenced inhibited : Option Bool) : String :=
  let qs := queryToString (getAlertGroupsQuery active silenced inhibited)
  if qs = "" then "alerts/groups" else "alerts/groups?" ++ qs

/- ---------------- Upstream client (fetchFromAlertmanager) --------------- -/

/-- The observable parts of the host fetch response that the client reads:
the numeric status, the status text, and the outcome of response.json(),
which is either the parsed value or the message of the parse rejection. -/
structure HttpResponse where
  status : Nat
  statusText : String
  jsonBody : Except String Json

/-- The response.ok predicate of the fetch API: status in the range 200-299. -/
def responseOk (r : HttpResponse) : Bool :=
  decide (200 ≤ r.status) && decide (r.status < 300)

/-- Outcome of fetchFromAlertmanager on one completed HTTP response: a
single attempt with no retry. A non-ok status throws an Error whose message
embeds the numeric status and the status text; an ok status returns the
parsed JSON body, and a body that fails to parse propagates the parse
rejection (the catch block logs to stderr and rethrows the same error, so
it is the identity on the propagated failure). -/
def fetchFromAlertmanager (r : HttpResponse) : Except String Json :=
  if responseOk r then r.jsonBody
  else Except.error ("Alertmanager API error: " ++ toString r.status ++ " " ++ r.statusText)

/- ---------------- Result envelope --------------------------------------- -/

/-- One content block of the result envelope; the handlers only ever emit
blocks whose type tag is the literal "text". -/
structure ContentBlock where
  type : String
  text : String

/-- The uniform operation result envelope. Success envelopes in the source
omit the isError key, whose absence reads as undefined (falsy); it is
modelled as the boolean false. -/
structure Envelope where
  content : List ContentBlock
  isError : Bool

/-- Success envelope: one text block, no isError flag. -/
def okEnvelope (t : String) : Envelope :=
  { content := [{ type := "text", text := t }], isError := false }

/-- Failure envelope: one text block plus isError set true. -/
def errEnvelope (t : String) : Envelope :=
  { content := [{ type := "text", text := t }], isError := true }

/- ---------------- The six tool handlers --------------------------------- -/

/-- A request issued to the upstream client. -/
structure UpstreamRequest where
  method : String
  path : String

/-- The get-alerts handler from the point at which the awaited upstream call
resolves (the request path it issued is getAlertsPath): formats every alert
and pretty-prints the array on success, or produces the prefixed failure
envelope on any caught exception. -/
def getAlerts (upstream : Except String (List Alert)) : Envelope :=
  match upstream with
  | .ok alerts =>
      okEnvelope (Json.render (Json.arr ((alerts.map formatAlert).map FormattedAlert.toJson)))
  | .error msg => errEnvelope ("Error fetching alerts: " ++ msg)

/-- The get-alert-details handler: fetches the whole alert list (path
"alerts", no query), scans for the first alert with the given fingerprint,
and returns either the full details payload, a domain not-found failure
naming the fingerprint, or the prefixed failure envelope for a caught
exception. -/
def getAlertDetails (fingerprint : String) (upstream : Except String (List Alert)) :
    Envelope :=
  match upstream with
  | .ok alerts =>
    match alerts.find? (fun a => a.fingerprint == fingerprint) with
    | none => errEnvelope ("Alert with fingerprint " ++ fingerprint ++ " not found")
    | some alert => okEnvelope (Json.render (alertDetailsJson alert))
  | .error msg => errEnvelope ("Error fetching alert details: " ++ msg)

/-- The create-silence handler from the point at which the POST to
"silences" (with body buildSilenceData) resolves: confirms with the
server-assigned silenceID on success, prefixed failure envelope otherwise. -/
def createSilence (upstream : Except String CreateSilenceResponse) : Envelope :=
  match upstream with
  | .ok resp => okEnvelope ("Successfully created silence with ID: " ++ resp.silenceID)
  | .error msg => errEnvelope ("Error creating silence: " ++ msg)

/-- The get-silences handler from the point at which the upstream call
resolves: projects each silence and pretty-prints the array. -/
def getSilences (upstream : Except String (List Silence)) : Envelope :=
  match upstream with
  | .ok silences =>
      okEnvelope (Json.render (Json.arr ((silences.map formatSilence).map FormattedSilence.toJson)))
  | .error msg => errEnvelope ("Error fetching silences: " ++ msg)

/-- The request issued by delete-silence: a DELETE on the singular path
segment silence/ followed by the id. -/
def deleteSilenceRequest (silenceId : String) : UpstreamRequest :=
  { method := "DELETE", path := "silence/" ++ silenceId }

/-- The delete-silence handler: the awaited result of the DELETE is
discarded in the source (the await expression is not bound), so the parsed
response body never influences the success text, which embeds the id. -/
def deleteSilence (silenceId : String) (upstream : Except String Json) : Envelope :=
  match upstream with
  | .ok _ => okEnvelope ("Successfully deleted silence with ID: " ++ silenceId)
  | .error msg => errEnvelope ("Error deleting silence: " ++ msg)

/-- The get-alert-groups handler from the point at which the upstream call
resolves (request path getAlertGroupsPath): the grouping payload is passed
through unprojected and pretty-printed. -/
def getAlertGroups (upstream : Except String Json) : Envelope :=
  match upstream with
  | .ok groups => okEnvelope (Json.render groups)
  | .error msg => errEnvelope ("Error fetching alert groups: " ++ msg)

/-- An envelope consisting of exactly one text content block. -/
def OneTextBlock (e : Envelope) : Prop :=
  ∃ s, e.content = [{ type := "text", text := s }]

/- ---------------- Concrete fixtures used by witnesses / counterexamples - -/

/-- A concrete alert whose severity label and summary / description
annotations are present but empty, exercising the falsy-defaulting edge of
the formatting projection. -/
def emptySeverityAlert : Alert :=
  { fingerprint := "fp-empty"
    status := { state := "active", silencedBy := [], inhibitedBy := [] }
    labels := [("alertname", "EmptyLabels"), ("severity", "")]
    annotations := [("summary", ""), ("description", "")]
    startsAt := "2025-01-01T00:00:00Z"
    endsAt := "2025-01-02T00:00:00Z"
    generatorURL := "http://prom/graph" }

/-- A concrete well-populated alert. -/
def detailsAlert : Alert :=
  { fingerprint := "abc123"
    status := { state := "active", silencedBy := ["s1"], inhibitedBy := [] }
    labels := [("alertname", "HighCPULoad"), ("severity", "critical")]
    annotations := [("summary", "cpu hot"), ("description", "node cpu high")]
    startsAt := "2025-03-01T10:00:00Z"
    endsAt := "2025-03-01T14:00:00Z"
    generatorURL := "http://prom/graph?g0" }

/-- A concrete 404 upstream response, as produced by a DELETE on a silence
id that does not exist. -/
def notFoundResponse : HttpResponse :=
  { status := 404
    statusText := "Not Found"
    jsonBody := Except.error "unexpected end of input" }

/- ======================= Theorems for the claims ======================== -/

/-- Claim C1: every one of the six operation handlers, for every input and
every outcome of the awaited upstream call (including a thrown exception,
modelled as the error case), returns exactly one envelope consisting of a
single text content block, and an exception caught at the boundary always
yields the failure envelope with isError set true; no handler ever returns
a partial result or propagates the exception (the handlers are total
functions). -/
theorem handlers_single_envelope :
    (∀ upstream : Except String (List Alert),
       OneTextBlock (getAlerts upstream) ∧
       (∀ e, upstream = Except.error e → (getAlerts upstream).isError = true)) ∧
    (∀ (fp : String) (upstream : Except String (List Alert)),
       OneTextBlock (getAlertDetails fp upstream) ∧
       (∀ e, upstream = Except.error e → (getAlertDetails fp upstream).isError = true)) ∧
    (∀ upstream : Except String CreateSilenceResponse,
       OneTextBlock (createSilence upstream) ∧
       (∀ e, upstream = Except.error e → (createSilence upstream).isError = true)) ∧
    (∀ upstream : Except String (List Silence),
       OneTextBlock (getSilences upstream) ∧
       (∀ e, upstream = Except.error e → (getSilences upstream).isError = true)) ∧
    (∀ (sid : String) (upstream : Except String Json),
       OneTextBlock (deleteSilence sid upstream) ∧
       (∀ e, upstream = Except.error e → (deleteSilence sid upstream).isError = true)) ∧
    (∀ upstream : Except String Json,
       OneTextBlock (getAlertGroups upstream) ∧
       (∀ e, upstream = Except.error e → (getAlertGroups upstream).isError = true)) := by
  refine ⟨?_, ?_, ?_, ?_, ?_, ?_⟩
  · rintro (msg | alerts)
    · exact ⟨⟨_, rfl⟩, fun e _ => rfl⟩
    · exact ⟨⟨_, rfl⟩, fun e h => nomatch h⟩
  · rintro fp (msg | alerts)
    · exact ⟨⟨_, rfl⟩, fun e _ => rfl⟩
    · refine ⟨?_, fun e h => nomatch h⟩
      cases h : alerts.find? (fun a => a.fingerprint == fp) with
      | none =>
        exact ⟨"Alert with fingerprint " ++ fp ++ " not found",
          by simp [getAlertDetails, h, errEnvelope]⟩
      | some a =>
        exact ⟨Json.render (alertDetailsJson a),
          by simp [getAlertDetails, h, okEnvelope]⟩
  · rintro (msg | resp)
    · exact ⟨⟨_, rfl⟩, fun e _ => rfl⟩
    · exact ⟨⟨_, rfl⟩, fun e h => nomatch h⟩
  · rintro (msg | silences)
    · exact ⟨⟨_, rfl⟩, fun e _ => rfl⟩
    · exact ⟨⟨_, rfl⟩, fun e h => nomatch h⟩
  · rintro sid (msg | j)
    · exact ⟨⟨_, rfl⟩, fun e _ => rfl⟩
    · exact ⟨⟨_, rfl⟩, fun e h => nomatch h⟩
  · rintro (msg | j)
    · exact ⟨⟨_, rfl⟩, fun e _ => rfl⟩
    · exact ⟨⟨_, rfl⟩, fun e h => nomatch h⟩

/-- Witness for claim C1 at concrete inputs: a thrown upstream exception on
get-alerts and on delete-silence is converted to the failure envelope. -/
theorem handlers_single_envelope_witness :
    (getAlerts (Except.error "boom")).isError = true ∧
    (deleteSilence "sid1" (Except.error "boom")).isError = true :=
  ⟨(handlers_single_envelope.1 (Except.error "boom")).2 "boom" rfl,
   ((handlers_single_envelope.2.2.2.2.1 "sid1" (Except.error "boom")).2 "boom" rfl)⟩

/-- Claim C10: defaulting in the get-alerts projection is triggered by JS
falsiness, so a severity label or summary / description annotation that is
present but equal to the empty string is replaced by the same default as an
absent one. -/
theorem formatAlert_empty_defaults (alert : Alert) :
    (alert.labels.lookup "severity" = some "" →
       (formatAlert alert).severity = "unknown") ∧
    (alert.annotations.lookup "summary" = some "" →
       (formatAlert alert).summary = "No summary provided") ∧
    (alert.annotations.lookup "description" = some "" →
       (formatAlert alert).description = "No description provided") := by
  refine ⟨fun h => ?_, fun h => ?_, fun h => ?_⟩ <;> simp [formatAlert, jsOr, h]

/-- Witness for claim C10 at a concrete alert with empty severity label and
empty summary / description annotations. -/
theorem formatAlert_empty_defaults_witness :
    (formatAlert emptySeverityAlert).severity = "unknown" ∧
    (formatAlert emptySeverityAlert).summary = "No summary provided" ∧
    (formatAlert emptySeverityAlert).description = "No description provided" :=
  ⟨(formatAlert_empty_defaults emptySeverityAlert).1 rfl,
   (formatAlert_empty_defaults emptySeverityAlert).2.1 rfl,
   (formatAlert_empty_defaults emptySeverityAlert).2.2 rfl⟩

/-- Claim C3: the FormattedAlert record serialized by get-alerts never
carries endsAt, generatorURL or the annotations mapping, and its keys are
drawn only from fingerprint, alertname, severity, summary, description,
startsAt, status and labels (alertname being dropped by JSON.stringify when
the label is absent); the other seven keys are always present. -/
theorem formattedAlert_lossy_keys (alert : Alert) :
    "endsAt" ∉ ((formatAlert alert).toJson).keys ∧
    "generatorURL" ∉ ((formatAlert alert).toJson).keys ∧
    "annotations" ∉ ((formatAlert alert).toJson).keys ∧
    ((formatAlert alert).toJson).keys ⊆
      ["fingerprint", "alertname", "severity", "summary", "description",
       "startsAt", "status", "labels"] ∧
    "fingerprint" ∈ ((formatAlert alert).toJson).keys ∧
    "severity" ∈ ((formatAlert alert).toJson).keys ∧
    "summary" ∈ ((formatAlert alert).toJson).keys ∧
    "description" ∈ ((formatAlert alert).toJson).keys ∧
    "startsAt" ∈ ((formatAlert alert).toJson).keys ∧
    "status" ∈ ((formatAlert alert).toJson).keys ∧
    "labels" ∈ ((formatAlert alert).toJson).keys := by
  cases h : (formatAlert alert).alertname <;>
    simp [FormattedAlert.toJson, Json.keys, h, List.subset_def]

/-- Counterexample to claim C2 as stated: on a concrete alert whose
severity label is present but equal to the empty string, the projected
severity is neither the value of that label nor the result of the
lacking-label clause, since the label is not lacking. -/
theorem formatAlert_claimed_projection_false :
    ¬ ((formatAlert emptySeverityAlert).severity = "" ∨
       (emptySeverityAlert.labels.lookup "severity" = none ∧
        (formatAlert emptySeverityAlert).severity = "unknown")) := by
  decide

/-- Claim C2 (amended): the get-alerts projection copies the severity label
when it is present and non-empty and substitutes "unknown" when the label
is absent or empty; summary and description are copied from the
annotations when present and non-empty and otherwise replaced by the fixed
placeholders; silenced holds iff silencedBy is non-empty and inhibited
holds iff inhibitedBy is non-empty. -/
theorem formatAlert_projection (alert : Alert) :
    (∀ s, alert.labels.lookup "severity" = some s → s ≠ "" →
       (formatAlert alert).severity = s) ∧
    (alert.labels.lookup "severity" = none ∨ alert.labels.lookup "severity" = some "" →
       (formatAlert alert).severity = "unknown") ∧
    (∀ s, alert.annotations.lookup "summary" = some s → s ≠ "" →
       (formatAlert alert).summary = s) ∧
    (alert.annotations.lookup "summary" = none ∨
       alert.annotations.lookup "summary" = some "" →
       (formatAlert alert).summary = "No summary provided") ∧
    (∀ s, alert.annotations.lookup "description" = some s → s ≠ "" →
       (formatAlert alert).description = s) ∧
    (alert.annotations.lookup "description" = none ∨
       alert.annotations.lookup "description" = some "" →
       (formatAlert alert).description = "No description provided") ∧
    ((formatAlert alert).status.silenced = true ↔
       alert.status.silencedBy.length > 0) ∧
    ((formatAlert alert).status.inhibited = true ↔
       alert.status.inhibitedBy.length > 0) := by
  refine ⟨fun s h hs => ?_, fun h => ?_, fun s h hs => ?_, fun h => ?_,
          fun s h hs => ?_, fun h => ?_, ?_, ?_⟩
  · simp [formatAlert, jsOr, h, hs]
  · rcases h with h | h <;> simp [formatAlert, jsOr, h]
  · simp [formatAlert, jsOr, h, hs]
  · rcases h with h | h <;> simp [formatAlert, jsOr, h]
  · simp [formatAlert, jsOr, h, hs]
  · rcases h with h | h <;> simp [formatAlert, jsOr, h]
  · simp [formatAlert]
  · simp [formatAlert]

/-- Witness for the amended claim C2 at concrete alerts: the populated
alert keeps its label and annotations, the empty-labelled alert receives
the defaults, and silenced tracks the non-empty silencedBy sequence. -/
theorem formatAlert_projection_witness :
    (formatAlert detailsAlert).severity = "critical" ∧
    (formatAlert detailsAlert).summary = "cpu hot" ∧
    (formatAlert emptySeverityAlert).severity = "unknown" ∧
    (formatAlert detailsAlert).status.silenced = true :=
  ⟨(formatAlert_projection detailsAlert).1 "critical" rfl (by decide),
   (formatAlert_projection detailsAlert).2.2.1 "cpu hot" rfl (by decide),
   (formatAlert_projection emptySeverityAlert).2.1 (Or.inr rfl),
   ((formatAlert_projection detailsAlert).2.2.2.2.2.2.1).mpr (by decide)⟩

/-- Claim C4: when the fetched alert list contains an alert with the given
fingerprint, get-alert-details returns the success envelope holding the
full details payload of the first such alert, whose fingerprint field
equals the input exactly; when no alert matches, it returns a failure
envelope with isError true whose single text block contains the literal
fingerprint string. -/
theorem getAlertDetails_spec (fingerprint : String) (alerts : List Alert) :
    (∀ a, alerts.find? (fun x => x.fingerprint == fingerprint) = some a →
       getAlertDetails fingerprint (Except.ok alerts) =
         okEnvelope (Json.render (alertDetailsJson a)) ∧
       (alertDetailsJson a).getField "fingerprint" = some (Json.str fingerprint) ∧
       (getAlertDetails fingerprint (Except.ok alerts)).isError = false) ∧
    (alerts.find? (fun x => x.fingerprint == fingerprint) = none →
       (getAlertDetails fingerprint (Except.ok alerts)).isError = true ∧
       ∃ s, (getAlertDetails fingerprint (Except.ok alerts)).content =
              [{ type := "text", text := s }] ∧ ContainsStr s fingerprint) := by
  constructor
  · intro a h
    have hp := List.find?_some h
    have hfp : a.fingerprint = fingerprint := by
      simpa using hp
    refine ⟨by simp [getAlertDetails, h], ?_, by simp [getAlertDetails, h, okEnvelope]⟩
    simp [alertDetailsJson, Json.getField, hfp]
  · intro h
    refine ⟨by simp [getAlertDetails, h, errEnvelope], ?_⟩
    refine ⟨"Alert with fingerprint " ++ fingerprint ++ " not found",
      by simp [getAlertDetails, h, errEnvelope], ?_⟩
    exact ⟨"Alert with fingerprint ", " not found", rfl⟩

/-- Witness for claim C4 at a concrete list: a present fingerprint is
echoed in the payload, an absent one produces the failure envelope. -/
theorem getAlertDetails_spec_witness :
    (alertDetailsJson detailsAlert).getField "fingerprint" =
      some (Json.str "abc123") ∧
    (getAlertDetails "missing" (Except.ok [detailsAlert])).isError = true :=
  ⟨((getAlertDetails_spec "abc123" [detailsAlert]).1 detailsAlert (by rfl)).2.1,
   ((getAlertDetails_spec "missing" [detailsAlert]).2 (by rfl)).1⟩

/-- Claim C5: in the query built by get-alerts, filter appears only when the
filter argument was supplied, silenced=true and inhibited=true appear iff
those flags are true, and active=false appears iff active was explicitly
false; in particular, a call with only silenced set true issues the path
alerts?silenced=true, omitting filter, inhibited and active. The same
encoding rules hold for the three boolean flags of get-alert-groups. -/
theorem query_encoding_spec (filter : Option String)
    (silenced inhibited active : Option Bool) :
    (("filter" ∈ (getAlertsQuery filter silenced inhibited active).map Prod.fst) →
       ∃ s, filter = some s) ∧
    ((("silenced", "true") ∈ getAlertsQuery filter silenced inhibited active) ↔
       silenced = some true) ∧
    ((("inhibited", "true") ∈ getAlertsQuery filter silenced inhibited active) ↔
       inhibited = some true) ∧
    ((("active", "false") ∈ getAlertsQuery filter silenced inhibited active) ↔
       active = some false) ∧
    getAlertsQuery none (some true) none none = [("silenced", "true")] ∧
    getAlertsPath none (some true) none none = "alerts?silenced=true" ∧
    ((("silenced", "true") ∈ getAlertGroupsQuery active silenced inhibited) ↔
       silenced = some true) ∧
    ((("inhibited", "true") ∈ getAlertGroupsQuery active silenced inhibited) ↔
       inhibited = some true) ∧
    ((("active", "false") ∈ getAlertGroupsQuery active silenced inhibited) ↔
       active = some false) := by
  refine ⟨?_, ?_, ?_, ?_, rfl, rfl, ?_, ?_, ?_⟩ <;>
    rcases filter with _ | f <;>
    rcases silenced with _ | ⟨_ | _⟩ <;>
    rcases inhibited with _ | ⟨_ | _⟩ <;>
    rcases active with _ | ⟨_ | _⟩ <;>
    simp [getAlertsQuery, getAlertsParams, getAlertGroupsQuery,
          getAlertGroupsParams]

/-- Witness for claim C5 at concrete arguments: the silenced pair is
included exactly when the flag is supplied true, and an included active
pair forces an explicitly false active argument. -/
theorem query_encoding_spec_witness :
    ("silenced", "true") ∈ getAlertsQuery none (some true) none none ∧
    ("active", "false") ∈ getAlertGroupsQuery (some false) none none :=
  ⟨((query_encoding_spec none (some true) none none).2.1).mpr rfl,
   ((query_encoding_spec none none none (some false)).2.2.2.2.2.2.2.2).mpr rfl⟩

/-- Counterexample to claim C6 as stated: a supplied but empty startsAt is
not passed through to the body unmodified; the JS falsy coalescing replaces
it by the current timestamp. -/
theorem buildSilenceData_passthrough_false :
    (buildSilenceData "2025-06-01T00:00:00.000Z"
        [{ name := "alertname", value := "X", isRegex := none }]
        (some "") "2030-01-01T00:00:00Z" "u" "c").startsAt =
      "2025-06-01T00:00:00.000Z" ∧
    ¬ (buildSilenceData "2025-06-01T00:00:00.000Z"
        [{ name := "alertname", value := "X", isRegex := none }]
        (some "") "2030-01-01T00:00:00Z" "u" "c").startsAt = "" := by
  constructor
  · rfl
  · decide

/-- Claim C6 (amended): the outgoing POST body maps each matcher through
the isRegex normalization, which substitutes false for an absent isRegex
and passes a present boolean through; the startsAt of the body is the
single current timestamp computed at the start of the call when the
argument is omitted or empty, and is the supplied value unmodified when it
is non-empty. -/
theorem buildSilenceData_spec (now : String) (matchers : List MatcherArg)
    (startsAt : Option String) (endsAt createdBy comment : String) :
    ((startsAt = none ∨ startsAt = some "") →
       (buildSilenceData now matchers startsAt endsAt createdBy comment).startsAt = now) ∧
    (∀ s, startsAt = some s → s ≠ "" →
       (buildSilenceData now matchers startsAt endsAt createdBy comment).startsAt = s) ∧
    (buildSilenceData now matchers startsAt endsAt createdBy comment).matchers =
       matchers.map normalizeMatcher ∧
    (∀ m : MatcherArg, m.isRegex = none → (normalizeMatcher m).isRegex = false) ∧
    (∀ (m : MatcherArg) (b : Bool), m.isRegex = some b →
       (normalizeMatcher m).isRegex = b) := by
  refine ⟨fun h => ?_, fun s h hs => ?_, rfl, fun m h => ?_, fun m b h => ?_⟩
  · rcases h with h | h <;> simp [buildSilenceData, jsOr, h]
  · simp [buildSilenceData, jsOr, h, hs]
  · simp [normalizeMatcher, h]
  · simp [normalizeMatcher, h]

/-- Witness for the amended claim C6 at concrete arguments: an omitted
startsAt receives the timestamp, a non-empty one is passed through, and an
absent isRegex is normalized to false. -/
theorem buildSilenceData_spec_witness :
    (buildSilenceData "2025-06-01T00:00:00.000Z"
        [{ name := "alertname", value := "X", isRegex := none }]
        none "2030-01-01T00:00:00Z" "u" "c").startsAt =
      "2025-06-01T00:00:00.000Z" ∧
    (buildSilenceData "2025-06-01T00:00:00.000Z" []
        (some "2026-01-01T00:00:00Z") "2030-01-01T00:00:00Z" "u" "c").startsAt =
      "2026-01-01T00:00:00Z" ∧
    (normalizeMatcher { name := "alertname", value := "X", isRegex := none }).isRegex =
      false :=
  ⟨(buildSilenceData_spec "2025-06-01T00:00:00.000Z"
      [{ name := "alertname", value := "X", isRegex := none }]
      none "2030-01-01T00:00:00Z" "u" "c").1 (Or.inl rfl),
   (buildSilenceData_spec "2025-06-01T00:00:00.000Z" []
      (some "2026-01-01T00:00:00Z") "2030-01-01T00:00:00Z" "u" "c").2.1
      "2026-01-01T00:00:00Z" rfl (by decide),
   (buildSilenceData_spec "x" [] none "e" "u" "c").2.2.2.1
      { name := "alertname", value := "X", isRegex := none } rfl⟩

/-- Counterexample to claim C7 as stated: the create-silence input schema
accepts an invocation whose matchers sequence is empty — z.array imposes no
minimum length, so an empty matchers array validates. -/
theorem createSilence_schema_accepts_empty :
    decodeCreateSilenceArgs (Json.obj
      [("matchers", Json.arr []),
       ("endsAt", Json.str "2030-01-01T00:00:00Z"),
       ("createdBy", Json.str "u"),
       ("comment", Json.str "c")]) =
      some { matchers := [], startsAt := none, endsAt := "2030-01-01T00:00:00Z",
             createdBy := "u", comment := "c" } := by
  rfl

/-- Claim C7 (amended): the create-silence schema requires the matchers
field to be present (an argument object lacking it is rejected), and every
accepted invocation carries the decoded matcher sequence of that field;
the schema places no lower bound on its length, so the sequence may be
empty. -/
theorem createSilence_schema_spec (fs : List (String × Json)) :
    (fs.lookup "matchers" = none →
       decodeCreateSilenceArgs (Json.obj fs) = none) ∧
    (∀ args, decodeCreateSilenceArgs (Json.obj fs) = some args →
       ∃ mj, fs.lookup "matchers" = some mj ∧
         decodeMatchers mj = some args.matchers) := by
  constructor
  · intro h
    simp [decodeCreateSilenceArgs, h]
  · intro args h
    cases hm : fs.lookup "matchers" with
    | none => simp [decodeCreateSilenceArgs, hm] at h
    | some mj =>
      refine ⟨mj, rfl, ?_⟩
      simp only [decodeCreateSilenceArgs, hm] at h
      split at h
      · rename_i ms sa e cb cm hms hsa he hcb hcm
        cases h
        exact hms
      · exact absurd h (by simp)

/-- Witness for the amended claim C7: an argument object without a matchers
field is rejected, and the accepted empty-matchers invocation decodes its
matchers from the supplied empty array. -/
theorem createSilence_schema_spec_witness :
    decodeCreateSilenceArgs (Json.obj
      [("endsAt", Json.str "2030-01-01T00:00:00Z"),
       ("createdBy", Json.str "u"),
       ("comment", Json.str "c")]) = none :=
  (createSilence_schema_spec
    [("endsAt", Json.str "2030-01-01T00:00:00Z"),
     ("createdBy", Json.str "u"),
     ("comment", Json.str "c")]).1 rfl

/-- Claim C8: the upstream client returns a parsed JSON value iff the
response status is 2xx and the body parsed as JSON, in a single attempt
with no retry; a non-2xx status yields a thrown error whose message embeds
the numeric status and the status text, so a 404 answered to the DELETE of
a silence surfaces through delete-silence as a failure envelope containing
the literal status code; a 2xx response whose body is not valid JSON also
propagates as a failure. -/
theorem fetchFromAlertmanager_spec (r : HttpResponse) :
    (∀ j, fetchFromAlertmanager r = Except.ok j ↔
       (responseOk r = true ∧ r.jsonBody = Except.ok j)) ∧
    (responseOk r = true → fetchFromAlertmanager r = r.jsonBody) ∧
    (responseOk r = false →
       ∃ msg, fetchFromAlertmanager r = Except.error msg ∧
         ContainsStr msg (toString r.status) ∧ ContainsStr msg r.statusText) ∧
    (∀ sid : String,
       (deleteSilence sid (fetchFromAlertmanager notFoundResponse)).isError = true ∧
       ∃ s, (deleteSilence sid (fetchFromAlertmanager notFoundResponse)).content =
              [{ type := "text", text := s }] ∧ ContainsStr s "404") := by
  refine ⟨?_, ?_, ?_, ?_⟩
  · intro j
    cases h : responseOk r <;> simp [fetchFromAlertmanager, h]
  · intro h
    simp [fetchFromAlertmanager, h]
  · intro h
    refine ⟨"Alertmanager API error: " ++ toString r.status ++ " " ++ r.statusText,
      by simp [fetchFromAlertmanager, h], ?_, ?_⟩
    · exact ⟨"Alertmanager API error: ", " " ++ r.statusText,
        by simp [String.append_assoc]⟩
    · exact ⟨"Alertmanager API error: " ++ toString r.status ++ " ", "",
        by simp [String.append_assoc]⟩
  · intro sid
    refine ⟨rfl, ?_⟩
    refine ⟨"Error deleting silence: " ++
      ("Alertmanager API error: " ++ toString (404 : Nat) ++ " " ++ "Not Found"),
      ?_, ?_⟩
    · rfl
    · exact ⟨"Error deleting silence: Alertmanager API error: ", " Not Found",
        by rfl⟩

/-- Witness for claim C8 at concrete responses: a 200 response with a valid
body succeeds with the parsed value, and the concrete 404 response makes
delete-silence fail. -/
theorem fetchFromAlertmanager_spec_witness :
    fetchFromAlertmanager
      { status := 200, statusText := "OK", jsonBody := Except.ok (Json.arr []) } =
      Except.ok (Json.arr []) ∧
    (deleteSilence "sid9" (fetchFromAlertmanager notFoundResponse)).isError = true :=
  ⟨((fetchFromAlertmanager_spec
      { status := 200, statusText := "OK", jsonBody := Except.ok (Json.arr []) }).1
      (Json.arr [])).mpr ⟨rfl, rfl⟩,
   ((fetchFromAlertmanager_spec notFoundResponse).2.2.2 "sid9").1⟩

/-- Claim C9: delete-silence issues a DELETE on the singular path
silence/ followed by the id, the parsed response body is discarded so it
never affects the success outcome, and on upstream success the envelope is
a single text block embedding the given id with no error flag. -/
theorem deleteSilence_spec (silenceId : String) (j j2 : Json) :
    deleteSilenceRequest silenceId =
      { method := "DELETE", path := "silence/" ++ silenceId } ∧
    deleteSilence silenceId (Except.ok j) = deleteSilence silenceId (Except.ok j2) ∧
    (deleteSilence silenceId (Except.ok j)).isError = false ∧
    ∃ s, (deleteSilence silenceId (Except.ok j)).content =
           [{ type := "text", text := s }] ∧ ContainsStr s silenceId := by
  refine ⟨rfl, rfl, rfl, ?_⟩
  exact ⟨"Successfully deleted silence with ID: " ++ silenceId,
    rfl, "Successfully deleted silence with ID: ", "", by simp⟩

/-- Witness for claim C3 at a concrete alert: its serialized key set sits
inside the allowed key list, exhibited on the always-present fingerprint
key. -/
theorem formattedAlert_lossy_keys_witness :
    "fingerprint" ∈ ["fingerprint", "alertname", "severity", "summary",
      "description", "startsAt", "status", "labels"] :=
  (formattedAlert_lossy_keys detailsAlert).2.2.2.1
    (formattedAlert_lossy_keys detailsAlert).2.2.2.2.1

/-- Witness for claim C9 at concrete inputs: two distinct upstream bodies
produce the same success envelope, which carries no error flag. -/
theorem deleteSilence_spec_witness :
    deleteSilence "sid42" (Except.ok Json.null) =
      deleteSilence "sid42" (Except.ok (Json.str "ignored")) ∧
    (deleteSilence "sid42" (Except.ok Json.null)).isError = false :=
  ⟨(deleteSilence_spec "sid42" Json.null (Json.str "ignored")).2.1,
   (deleteSilence_spec "sid42" Json.null (Json.str "ignored")).2.2.1⟩
